import Mathlib

/-!
Verification of the pdf-region-mapper annotation engine.

The definitions below are a shallow embedding of the React application in
`src/unnamed/part_001` (the rectangle-drawing `App`) together with the
top-level DocuSign unit conversions and the guarded coordinate transform
from the `App` variants embedded in `src/SETUP.md`.

JS numbers are modelled as rationals; `Math.round x` is `⌊x + 1/2⌋`, which
matches the JS semantics on finite inputs.  Every rational is finite, so
`isFinite` is the constantly-true predicate `jsIsFinite`; the guards of the
source are still written out structurally.  The event handlers of the app
depend on the DOM event only through the value of `getCanvasCoordinates(e)`
(possibly `null`), so the embedded handlers receive that value directly as
an `Option Pos` argument.
-/

/-- JS `Math.round`: for finite inputs, `Math.round x = ⌊x + 1/2⌋`. -/
def jsRound (q : ℚ) : ℤ := ⌊q + 1/2⌋

/-- JS `isFinite`; every rational is finite, so this is constantly `true`.
It is kept so that the guards of the source appear in the embedding. -/
def jsIsFinite (_ : ℚ) : Bool := true

/-- `const DOCUSIGN_DPI = 72` (src/SETUP.md line 61). -/
def DOCUSIGN_DPI : ℚ := 72

/-- `const UI_DPI = 96` (src/SETUP.md line 62). -/
def UI_DPI : ℚ := 96

/-- `pixelsToPoints` (src/SETUP.md lines 65–68):
`if (!isFinite(pixels) || pixels < 0) return 0;
 return Math.max(0, Math.round((pixels * DOCUSIGN_DPI) / UI_DPI));` -/
def pixelsToPoints (pixels : ℚ) : ℤ :=
  if jsIsFinite pixels = false ∨ pixels < 0 then 0
  else max 0 (jsRound (pixels * DOCUSIGN_DPI / UI_DPI))

/-- `pointsToPixels` (src/SETUP.md lines 71–74):
`if (!isFinite(points) || points < 0) return 0;
 return Math.max(0, Math.round((points * UI_DPI) / DOCUSIGN_DPI));` -/
def pointsToPixels (points : ℚ) : ℤ :=
  if jsIsFinite points = false ∨ points < 0 then 0
  else max 0 (jsRound (points * UI_DPI / DOCUSIGN_DPI))

/-- A canvas-space position `{x, y}`. -/
structure Pos where
  x : ℚ
  y : ℚ
deriving DecidableEq, Repr

/-- The transient rectangle `{x1, y1, x2, y2}` held in `currentRect`. -/
structure RectCorners where
  x1 : ℚ
  y1 : ℚ
  x2 : ℚ
  y2 : ℚ
deriving DecidableEq, Repr

/-- The result of `getTopLeftCoordinates`: rounded top-left corner and size. -/
structure Coords where
  x : ℤ
  y : ℤ
  width : ℤ
  height : ℤ
deriving DecidableEq, Repr

/-- A committed rectangle as stored in the `rectangles` state
(src/unnamed/part_001 lines 134–141): the rounded coordinates together with
`pageNum: currentPage` and `id: Date.now()`. -/
structure Region where
  x : ℤ
  y : ℤ
  width : ℤ
  height : ℤ
  pageNum : ℤ
  id : ℕ
deriving DecidableEq, Repr

/-- `getTopLeftCoordinates` (src/unnamed/part_001 lines 67–79). -/
def getTopLeftCoordinates (x1 y1 x2 y2 : ℚ) : Coords :=
  { x := jsRound (min x1 x2)
    y := jsRound (min y1 y2)
    width := jsRound |x2 - x1|
    height := jsRound |y2 - y1| }

/-- The result of `canvas.getBoundingClientRect()`. -/
structure BoundingRect where
  left : ℚ
  top : ℚ
  width : ℚ
  height : ℚ
deriving DecidableEq, Repr

/-- The canvas backing-store pixel dimensions `canvas.width`/`canvas.height`. -/
structure CanvasDims where
  width : ℚ
  height : ℚ
deriving DecidableEq, Repr

namespace App

/-- `getCanvasCoordinates` of src/unnamed/part_001 lines 82–94.  This variant
has no zero-area or finiteness guard: after the `canvasRef` null-check it
always returns a pair.  (In JS a zero `rect.width` makes the scale `Infinity`;
rational division by zero yields `0` instead — in either semantics the result
is a pair, never `null`.) -/
def getCanvasCoordinates (canvas : Option CanvasDims) (rect : BoundingRect)
    (clientX clientY : ℚ) : Option Pos :=
  match canvas with
  | none => none
  | some c =>
      some { x := (clientX - rect.left) * (c.width / rect.width)
             y := (clientY - rect.top) * (c.height / rect.height) }

end App

namespace AppMd

/-- `getCanvasCoordinates` of the rectangle-drawing `App` variant embedded in
src/SETUP.md lines 704–729, with the zero-area and finiteness guards. -/
def getCanvasCoordinates (canvas : Option CanvasDims) (rect : BoundingRect)
    (clientX clientY : ℚ) : Option Pos :=
  match canvas with
  | none => none
  | some c =>
      if rect.width = 0 ∨ rect.height = 0 then none
      else
        let scaleX := c.width / rect.width
        let scaleY := c.height / rect.height
        if jsIsFinite scaleX = false ∨ jsIsFinite scaleY = false then none
        else
          let x := (clientX - rect.left) * scaleX
          let y := (clientY - rect.top) * scaleY
          if jsIsFinite x = false ∨ jsIsFinite y = false then none
          else some { x := x, y := y }

end AppMd

/-- The React state of the `App` in src/unnamed/part_001 that the annotation
engine reads and writes (`pdfDoc`, `pdfFile` and the render-only state are
omitted: no claim depends on them). -/
structure AppState where
  currentPage : ℤ
  totalPages : ℤ
  rectangles : List Region
  currentRect : Option RectCorners
  isDrawing : Bool
  startPos : Option Pos
deriving DecidableEq, Repr

/-- The `useState` initial values (src/unnamed/part_001 lines 8–13). -/
def initialState : AppState :=
  { currentPage := 1, totalPages := 0, rectangles := [], currentRect := none,
    isDrawing := false, startPos := none }

/-- `goToPage` (src/unnamed/part_001 lines 41–46). -/
def goToPage (pageNum : ℤ) (s : AppState) : AppState :=
  if 1 ≤ pageNum ∧ pageNum ≤ s.totalPages then
    { s with currentPage := pageNum, currentRect := none }
  else s

/-- The state updates of `handleFileUpload` on success
(src/unnamed/part_001 lines 34–37). -/
def handleFileLoaded (numPages : ℤ) (s : AppState) : AppState :=
  { s with totalPages := numPages, currentPage := 1, rectangles := [] }

/-- `handleMouseDown` (src/unnamed/part_001 lines 96–103); `pos` is the value
of `getCanvasCoordinates(e)`. -/
def handleMouseDown (pos : Option Pos) (s : AppState) : AppState :=
  match pos with
  | none => s
  | some p =>
      { s with isDrawing := true, startPos := some p,
               currentRect := some { x1 := p.x, y1 := p.y, x2 := p.x, y2 := p.y } }

/-- `handleMouseMove` (src/unnamed/part_001 lines 105–117). -/
def handleMouseMove (pos : Option Pos) (s : AppState) : AppState :=
  match s.isDrawing, s.startPos, pos with
  | false, _, _ => s
  | _, none, _ => s
  | _, _, none => s
  | true, some sp, some p =>
      { s with currentRect := some { x1 := sp.x, y1 := sp.y, x2 := p.x, y2 := p.y } }

/-- `handleMouseUp` (src/unnamed/part_001 lines 119–147).  The source has two
early returns — `if (!isDrawing || !startPos) return;` and then
`if (!pos || !currentRect) return;` — merged here into the fallthrough case;
all of them leave the state unchanged.  Note that `pos` is only null-checked:
the committed rectangle comes from `currentRect`. -/
def handleMouseUp (pos : Option Pos) (now : ℕ) (s : AppState) : AppState :=
  match s.isDrawing, s.startPos, pos, s.currentRect with
  | true, some _, some _, some cr =>
      let coords := getTopLeftCoordinates cr.x1 cr.y1 cr.x2 cr.y2
      let rects :=
        if 5 < coords.width ∧ 5 < coords.height then
          s.rectangles ++ [{ x := coords.x, y := coords.y, width := coords.width,
                             height := coords.height, pageNum := s.currentPage, id := now }]
        else s.rectangles
      { s with rectangles := rects, isDrawing := false, startPos := none, currentRect := none }
  | _, _, _, _ => s

/-- `handleDeleteRect` (src/unnamed/part_001 lines 150–152). -/
def handleDeleteRect (id : ℕ) (s : AppState) : AppState :=
  { s with rectangles := s.rectangles.filter (fun r => r.id ≠ id) }

/-- `handleClearPage` (src/unnamed/part_001 lines 155–157). -/
def handleClearPage (s : AppState) : AppState :=
  { s with rectangles := s.rectangles.filter (fun r => r.pageNum ≠ s.currentPage) }

/-- The `onMouseLeave` handler (src/unnamed/part_001 lines 369–372):
`setIsDrawing(false); setCurrentRect(null);` — `startPos` is retained. -/
def handleMouseLeave (s : AppState) : AppState :=
  { s with isDrawing := false, currentRect := none }

/-- One UI event of the annotation engine.  `up` carries the `Date.now()`
reading used for the id of a committed rectangle; pointer events carry the
value of `getCanvasCoordinates` at that event. -/
inductive Event where
  | load (numPages : ℤ)
  | down (pos : Option Pos)
  | move (pos : Option Pos)
  | up (pos : Option Pos) (now : ℕ)
  | leave
  | goTo (n : ℤ)
  | clearPage
  | deleteRect (id : ℕ)
deriving DecidableEq, Repr

/-- Dispatch one event to the handler the app binds it to. -/
def step (s : AppState) (e : Event) : AppState :=
  match e with
  | .load n => handleFileLoaded n s
  | .down p => handleMouseDown p s
  | .move p => handleMouseMove p s
  | .up p t => handleMouseUp p t s
  | .leave => handleMouseLeave s
  | .goTo n => goToPage n s
  | .clearPage => handleClearPage s
  | .deleteRect i => handleDeleteRect i s

/-- Run a sequence of events (the single-threaded event loop). -/
def run (s : AppState) (es : List Event) : AppState := es.foldl step s

/-- The last element of a list of positions, with default `p`. -/
def lastPos (p : Pos) : List Pos → Pos
  | [] => p
  | q :: qs => lastPos q qs

/-- A complete drag gesture: pointer-down at `p1`, moves through `moves`,
pointer-up at `p3`, with clock reading `t` at release.  All three transforms
succeed (yield `some`). -/
def gesture (p1 : Pos) (moves : List Pos) (p3 : Pos) (t : ℕ) : List Event :=
  Event.down (some p1) :: (moves.map (fun p => Event.move (some p)) ++ [Event.up (some p3) t])

/-- The `Date.now()` readings carried by the `up` events of a trace, in order. -/
def eventTimes (es : List Event) : List ℕ :=
  es.filterMap (fun e => match e with
    | .up _ t => some t
    | _ => none)

lemma run_nil (s : AppState) : run s [] = s := rfl

lemma run_cons (s : AppState) (e : Event) (es : List Event) :
    run s (e :: es) = run (step s e) es := rfl

lemma run_append (s : AppState) (l₁ l₂ : List Event) :
    run s (l₁ ++ l₂) = run (run s l₁) l₂ := List.foldl_append _ _ _ _

lemma run_singleton (s : AppState) (e : Event) : run s [e] = step s e := rfl

lemma jsRound_nonneg {q : ℚ} (h : 0 ≤ q) : 0 ≤ jsRound q := by
  unfold jsRound
  rw [Int.le_floor]
  push_cast
  linarith

lemma pixelsToPoints_of_nonneg {q : ℚ} (h : 0 ≤ q) :
    pixelsToPoints q = jsRound (q * 3 / 4) ∧ 0 ≤ pixelsToPoints q := by
  have harg : q * DOCUSIGN_DPI / UI_DPI = q * 3 / 4 := by
    unfold DOCUSIGN_DPI UI_DPI; ring
  have hguard : ¬ (jsIsFinite q = false ∨ q < 0) := by
    rintro (hc | hc)
    · simp [jsIsFinite] at hc
    · exact absurd hc (not_lt.mpr h)
  have h0 : 0 ≤ jsRound (q * 3 / 4) := jsRound_nonneg (by linarith)
  constructor
  · unfold pixelsToPoints
    rw [if_neg hguard, harg, max_eq_right h0]
  · unfold pixelsToPoints
    rw [if_neg hguard]
    exact le_max_left 0 _

lemma pointsToPixels_of_nonneg {q : ℚ} (h : 0 ≤ q) :
    pointsToPixels q = jsRound (q * 4 / 3) ∧ 0 ≤ pointsToPixels q := by
  have harg : q * UI_DPI / DOCUSIGN_DPI = q * 4 / 3 := by
    unfold DOCUSIGN_DPI UI_DPI; ring
  have hguard : ¬ (jsIsFinite q = false ∨ q < 0) := by
    rintro (hc | hc)
    · simp [jsIsFinite] at hc
    · exact absurd hc (not_lt.mpr h)
  have h0 : 0 ≤ jsRound (q * 4 / 3) := jsRound_nonneg (by linarith)
  constructor
  · unfold pointsToPixels
    rw [if_neg hguard, harg, max_eq_right h0]
  · unfold pointsToPixels
    rw [if_neg hguard]
    exact le_max_left 0 _

/-- Claim C5: `goToPage n` is a silent no-op when `n` lies outside
`[1, totalPages]` — the whole state, `currentPage` included, is unchanged —
and sets `currentPage = n` when `n` is inside the bounds. -/
theorem c5_goToPage_bounds (s : AppState) (n : ℤ) :
    (¬ (1 ≤ n ∧ n ≤ s.totalPages) → goToPage n s = s) ∧
    ((1 ≤ n ∧ n ≤ s.totalPages) → (goToPage n s).currentPage = n) := by
  constructor
  · intro h
    unfold goToPage
    rw [if_neg h]
  · intro h
    unfold goToPage
    rw [if_pos h]

/-- Witness for C5: `goTo 0` with no document loaded is a no-op, and after
loading a 3-page document `goTo 2` sets the current page to `2`. -/
theorem c5_witness :
    goToPage 0 initialState = initialState ∧
    (goToPage 2 (handleFileLoaded 3 initialState)).currentPage = 2 := by
  constructor
  · exact (c5_goToPage_bounds initialState 0).1 (by norm_num [initialState])
  · exact (c5_goToPage_bounds (handleFileLoaded 3 initialState) 2).2
      (by norm_num [handleFileLoaded, initialState])

/-- Claim C7: `pixelsToPoints` always returns a non-negative integer, maps
negative inputs to `0`, and on non-negative inputs multiplies by the fixed
`72 / 96` DPI ratio and rounds to the nearest integer. -/
theorem c7_pixelsToPoints_spec (q : ℚ) :
    0 ≤ pixelsToPoints q ∧
    (q < 0 → pixelsToPoints q = 0) ∧
    (0 ≤ q → pixelsToPoints q = jsRound (q * (72 / 96))) := by
  refine ⟨?_, ?_, ?_⟩
  · unfold pixelsToPoints
    split
    · exact le_refl 0
    · exact le_max_left 0 _
  · intro h
    unfold pixelsToPoints
    rw [if_pos (Or.inr h)]
  · intro h
    rw [(pixelsToPoints_of_nonneg h).1]
    norm_num
    ring_nf

/-- Witness for C7: `pixelsToPoints` at `10` and `-3`. -/
theorem c7_witness :
    0 ≤ pixelsToPoints 10 ∧ pixelsToPoints (-3) = 0 ∧
    pixelsToPoints 10 = jsRound (10 * (72 / 96)) :=
  ⟨(c7_pixelsToPoints_spec 10).1,
   (c7_pixelsToPoints_spec (-3)).2.1 (by norm_num),
   (c7_pixelsToPoints_spec 10).2.2 (by norm_num)⟩

/-- Claim C9: `handleClearPage` keeps exactly the regions whose page differs
from the current page, in their original insertion order (the result is a
sublist of the original list), and leaves the current page unchanged. -/
theorem c9_clearPage_spec (s : AppState) :
    ((handleClearPage s).rectangles).Sublist s.rectangles ∧
    (∀ r : Region, r ∈ (handleClearPage s).rectangles ↔
      (r ∈ s.rectangles ∧ r.pageNum ≠ s.currentPage)) ∧
    (handleClearPage s).currentPage = s.currentPage := by
  refine ⟨List.filter_sublist _, ?_, rfl⟩
  intro r
  simp [handleClearPage, List.mem_filter]

/-- A state with two regions committed on page 1 while the current page is 2,
for the clear-page scenario of the spec. -/
def twoRegionsPageOne : AppState :=
  { currentPage := 2, totalPages := 3,
    rectangles := [{ x := 0, y := 0, width := 10, height := 10, pageNum := 1, id := 1 },
                   { x := 20, y := 20, width := 30, height := 30, pageNum := 1, id := 2 }],
    currentRect := none, isDrawing := false, startPos := none }

/-- Witness for C9, the spec's scenario: two regions on page 1, clear-page
invoked while the current page is 2 — both regions remain. -/
theorem c9_witness :
    ({ x := 0, y := 0, width := 10, height := 10, pageNum := 1, id := 1 } : Region) ∈
      (handleClearPage twoRegionsPageOne).rectangles ∧
    ({ x := 20, y := 20, width := 30, height := 30, pageNum := 1, id := 2 } : Region) ∈
      (handleClearPage twoRegionsPageOne).rectangles := by
  constructor
  · exact ((c9_clearPage_spec twoRegionsPageOne).2.1 _).mpr (by norm_num [twoRegionsPageOne])
  · exact ((c9_clearPage_spec twoRegionsPageOne).2.1 _).mpr (by norm_num [twoRegionsPageOne])

/-- Claim C10: if the coordinate transform yields `null` at pointer-up while a
gesture is active, `handleMouseUp` returns before resetting anything: no
Region is committed and the whole state — `isDrawing`, `startPos`,
`currentRect` included — is retained, so the machine does not go back to
Idle. -/
theorem c10_null_transform_on_up (s : AppState) (t : ℕ)
    (h1 : s.isDrawing = true) (h2 : s.startPos ≠ none) :
    step s (Event.up none t) = s := by
  obtain ⟨p, hp⟩ := Option.ne_none_iff_exists'.mp h2
  simp [step, handleMouseUp, h1, hp]

/-- Witness for C10: a pointer-down at `(0,0)` followed by a pointer-up whose
transform fails leaves the dragging state fully intact. -/
theorem c10_witness :
    step (run initialState [Event.down (some ⟨0, 0⟩)]) (Event.up none 3) =
      run initialState [Event.down (some ⟨0, 0⟩)] :=
  c10_null_transform_on_up _ 3
    (by simp [run, step, initialState, handleMouseDown])
    (by simp [run, step, initialState, handleMouseDown])

/-- Counterexample to C6 as stated: the `getCanvasCoordinates` of
src/unnamed/part_001 (cited by the claim) does not return `null` on a
zero-area bounding box — with a present canvas it returns a coordinate pair
unconditionally. -/
theorem c6_counterexample :
    (⟨0, 0, 0, 0⟩ : BoundingRect).width = 0 ∧
    App.getCanvasCoordinates (some ⟨800, 600⟩) ⟨0, 0, 0, 0⟩ 10 10 ≠ none := by
  constructor
  · rfl
  · simp [App.getCanvasCoordinates]

/-- Claim C6 (amended): the guarded `getCanvasCoordinates` of the
src/SETUP.md variants returns `null` exactly when the canvas is absent or
the displayed bounding box has zero width or height, and otherwise returns
the event coordinates scaled by `canvas.width / rect.width` and
`canvas.height / rect.height`; the src/unnamed/part_001 variant performs no
zero-area check (see the counterexample). -/
theorem c6_canvas_transform (canvas : Option CanvasDims) (rect : BoundingRect)
    (cx cy : ℚ) :
    (AppMd.getCanvasCoordinates canvas rect cx cy = none ↔
      canvas = none ∨ rect.width = 0 ∨ rect.height = 0) ∧
    (∀ c : CanvasDims, canvas = some c → rect.width ≠ 0 → rect.height ≠ 0 →
      AppMd.getCanvasCoordinates canvas rect cx cy =
        some { x := (cx - rect.left) * (c.width / rect.width),
               y := (cy - rect.top) * (c.height / rect.height) }) := by
  constructor
  · cases canvas with
    | none => simp [AppMd.getCanvasCoordinates]
    | some c =>
        by_cases h : rect.width = 0 ∨ rect.height = 0
        · simp [AppMd.getCanvasCoordinates, h]
        · simp [AppMd.getCanvasCoordinates, h, jsIsFinite]
  · rintro c rfl hw hh
    simp [AppMd.getCanvasCoordinates, hw, hh, jsIsFinite]

/-- Witness for C6: an 800×600 canvas displayed at 400×300 doubles both
coordinates of the pointer position `(10, 20)`. -/
theorem c6_witness :
    AppMd.getCanvasCoordinates (some ⟨800, 600⟩) ⟨0, 0, 400, 300⟩ 10 20 =
      some { x := (10 - (0 : ℚ)) * (800 / 400), y := (20 - (0 : ℚ)) * (600 / 300) } :=
  (c6_canvas_transform (some ⟨800, 600⟩) ⟨0, 0, 400, 300⟩ 10 20).2
    ⟨800, 600⟩ rfl (by norm_num) (by norm_num)

/-- Claim C3: for every pixel value `px ≥ 0`, converting to DocuSign points
and back (`pointsToPixels (pixelsToPoints px)`, the 72/96-DPI pair) yields a
value within ±1 unit of `px`. -/
theorem c3_round_trip (px : ℚ) (hpx : 0 ≤ px) :
    |((pointsToPixels ((pixelsToPoints px : ℤ) : ℚ) : ℤ) : ℚ) - px| ≤ 1 := by
  obtain ⟨hp1, hp0⟩ := pixelsToPoints_of_nonneg hpx
  have hc : (0:ℚ) ≤ ((pixelsToPoints px : ℤ) : ℚ) := by exact_mod_cast hp0
  obtain ⟨hq1, hq0⟩ := pointsToPixels_of_nonneg hc
  rw [hq1]
  simp only [jsRound]
  have hn2 : pixelsToPoints px = ⌊px * 3 / 4 + 1/2⌋ := by rw [hp1]; rfl
  have hb1 : ((pixelsToPoints px : ℤ) : ℚ) ≤ px * 3 / 4 + 1/2 := by
    rw [hn2]; exact Int.floor_le _
  have hb2 : px * 3 / 4 + 1/2 < ((pixelsToPoints px : ℤ) : ℚ) + 1 := by
    rw [hn2]
    have := Int.lt_floor_add_one (px * 3 / 4 + 1/2)
    push_cast at this ⊢
    linarith
  obtain ⟨m, hm | hm | hm⟩ : ∃ m : ℤ, pixelsToPoints px = 3*m ∨
      pixelsToPoints px = 3*m + 1 ∨ pixelsToPoints px = 3*m + 2 :=
    ⟨pixelsToPoints px / 3, by omega⟩
  · rw [hm] at hb1 hb2 ⊢
    have hfl : (⌊((3*m : ℤ) : ℚ) * 4 / 3 + 1/2⌋ : ℤ) = 4*m := by
      rw [Int.floor_eq_iff]
      constructor
      · push_cast; linarith
      · push_cast; linarith
    rw [hfl, abs_le]
    push_cast at hb1 hb2 ⊢
    constructor <;> linarith
  · rw [hm] at hb1 hb2 ⊢
    have hfl : (⌊((3*m + 1 : ℤ) : ℚ) * 4 / 3 + 1/2⌋ : ℤ) = 4*m + 1 := by
      rw [Int.floor_eq_iff]
      constructor
      · push_cast; linarith
      · push_cast; linarith
    rw [hfl, abs_le]
    push_cast at hb1 hb2 ⊢
    constructor <;> linarith
  · rw [hm] at hb1 hb2 ⊢
    have hfl : (⌊((3*m + 2 : ℤ) : ℚ) * 4 / 3 + 1/2⌋ : ℤ) = 4*m + 3 := by
      rw [Int.floor_eq_iff]
      constructor
      · push_cast; linarith
      · push_cast; linarith
    rw [hfl, abs_le]
    push_cast at hb1 hb2 ⊢
    constructor <;> linarith

/-- Witness for C3: the round-trip at `px = 10` (which maps to 8 points and
back to 11 pixels) is within ±1. -/
theorem c3_witness :
    (0:ℚ) ≤ 10 ∧ |((pointsToPixels ((pixelsToPoints 10 : ℤ) : ℚ) : ℤ) : ℚ) - 10| ≤ 1 :=
  ⟨by norm_num, c3_round_trip 10 (by norm_num)⟩

lemma run_moves (moves : List Pos) (s : AppState) (p1 : Pos) (a b : ℚ)
    (h1 : s.isDrawing = true) (h2 : s.startPos = some p1)
    (h3 : s.currentRect = some ⟨p1.x, p1.y, a, b⟩) :
    run s (moves.map (fun p => Event.move (some p))) =
      { s with
        currentRect := some ⟨p1.x, p1.y, (lastPos ⟨a, b⟩ moves).x, (lastPos ⟨a, b⟩ moves).y⟩ } := by
  induction moves generalizing s a b with
  | nil =>
      show run s [] = { s with currentRect := some ⟨p1.x, p1.y, a, b⟩ }
      rw [run_nil, ← h3]
  | cons q qs ih =>
      rw [List.map_cons, run_cons]
      have hstep : step s (Event.move (some q)) =
          { s with currentRect := some ⟨p1.x, p1.y, q.x, q.y⟩ } := by
        simp [step, handleMouseMove, h1, h2]
      rw [hstep]
      rw [ih { s with currentRect := some ⟨p1.x, p1.y, q.x, q.y⟩ } q.x q.y h1 h2 rfl]
      rfl

/-- The Region committed by `handleMouseUp` for a drag from `p1` to `pe`,
i.e. `{ ...coords, pageNum: currentPage, id: Date.now() }`
(src/unnamed/part_001 lines 135–139). -/
def committedRegion (page : ℤ) (p1 pe : Pos) (t : ℕ) : Region :=
  { x := (getTopLeftCoordinates p1.x p1.y pe.x pe.y).x,
    y := (getTopLeftCoordinates p1.x p1.y pe.x pe.y).y,
    width := (getTopLeftCoordinates p1.x p1.y pe.x pe.y).width,
    height := (getTopLeftCoordinates p1.x p1.y pe.x pe.y).height,
    pageNum := page, id := t }

lemma gesture_spec (s : AppState) (p1 : Pos) (moves : List Pos) (p3 : Pos) (t : ℕ) :
    run s (gesture p1 moves p3 t) =
      { s with isDrawing := false, startPos := none, currentRect := none,
               rectangles :=
                 if 5 < (getTopLeftCoordinates p1.x p1.y (lastPos p1 moves).x
                          (lastPos p1 moves).y).width ∧
                    5 < (getTopLeftCoordinates p1.x p1.y (lastPos p1 moves).x
                          (lastPos p1 moves).y).height then
                   s.rectangles ++ [committedRegion s.currentPage p1 (lastPos p1 moves) t]
                 else s.rectangles } := by
  unfold gesture
  rw [run_cons]
  have hdown : step s (Event.down (some p1)) =
      { s with isDrawing := true, startPos := some p1,
               currentRect := some ⟨p1.x, p1.y, p1.x, p1.y⟩ } := rfl
  rw [hdown, run_append]
  rw [run_moves moves _ p1 p1.x p1.y rfl rfl rfl]
  rw [run_singleton]
  rfl

/-- Claim C1 (amended): for a drag gesture `down(p1) → moves → up(p3)` whose
transforms all succeed, the rectangle is computed from the start corner `p1`
and the LAST pointer-move position (the pointer-up position `p3` is only
null-checked, never used for the rectangle): it is
`{x: round(min x1 x2), y: round(min y1 y2), width: round |Δx|, height: round |Δy|}`
with `(x2, y2)` the last move (or `p1` if no move occurred).  Exactly one
Region, tagged with the current page, is appended when both rounded
dimensions exceed the threshold `5`, and the machine returns to Idle
(`isDrawing = false`, `startPos = currentRect = none`) either way. -/
theorem c1_gesture_commit (s : AppState) (p1 : Pos) (moves : List Pos) (p3 : Pos) (t : ℕ) :
    (run s (gesture p1 moves p3 t)).isDrawing = false ∧
    (run s (gesture p1 moves p3 t)).startPos = none ∧
    (run s (gesture p1 moves p3 t)).currentRect = none ∧
    (run s (gesture p1 moves p3 t)).currentPage = s.currentPage ∧
    (run s (gesture p1 moves p3 t)).rectangles =
      (if 5 < jsRound |(lastPos p1 moves).x - p1.x| ∧
          5 < jsRound |(lastPos p1 moves).y - p1.y| then
        s.rectangles ++
          [{ x := jsRound (min p1.x (lastPos p1 moves).x),
             y := jsRound (min p1.y (lastPos p1 moves).y),
             width := jsRound |(lastPos p1 moves).x - p1.x|,
             height := jsRound |(lastPos p1 moves).y - p1.y|,
             pageNum := s.currentPage, id := t }]
      else s.rectangles) := by
  rw [gesture_spec]
  exact ⟨rfl, rfl, rfl, rfl, rfl⟩

/-- Counterexample to C1 as stated: the gesture `down (0,0)`, no moves,
`up (100,100)` satisfies the claim's threshold condition on the start and
end (pointer-up) corners — `|Δx| = |Δy| = 100 > 5` — yet no Region at all is
committed, because the code builds the rectangle from `currentRect`, which
never saw the pointer-up position. -/
theorem c1_counterexample :
    5 < |(100 : ℚ) - 0| ∧
    (run initialState (gesture ⟨0, 0⟩ [] ⟨100, 100⟩ 7)).rectangles = [] := by
  constructor
  · norm_num
  · norm_num [run, step, gesture, initialState, handleMouseDown, handleMouseUp,
      getTopLeftCoordinates, jsRound]

/-- Claim C2 (amended): a valid page navigation while a drag is in progress
clears only the in-progress rectangle preview (`currentRect := none`) and
moves to the requested page; it does NOT reset `isDrawing` or `startPos`,
so the machine stays in the Dragging state and the gesture survives the
navigation (see the counterexample for a commit landing on the new page). -/
theorem c2_goto_while_dragging (s : AppState) (n : ℤ)
    (hd : s.isDrawing = true) (h1 : 1 ≤ n) (h2 : n ≤ s.totalPages) :
    (goToPage n s).isDrawing = true ∧
    (goToPage n s).startPos = s.startPos ∧
    (goToPage n s).currentRect = none ∧
    (goToPage n s).rectangles = s.rectangles ∧
    (goToPage n s).currentPage = n := by
  unfold goToPage
  rw [if_pos ⟨h1, h2⟩]
  exact ⟨hd, rfl, rfl, rfl, rfl⟩

/-- Witness for C2 (amended): navigating to page 2 of a 3-page document right
after a pointer-down keeps the machine dragging. -/
theorem c2_witness :
    (goToPage 2 (run initialState [Event.load 3, Event.down (some ⟨0, 0⟩)])).isDrawing = true ∧
    (goToPage 2 (run initialState [Event.load 3, Event.down (some ⟨0, 0⟩)])).startPos =
      (run initialState [Event.load 3, Event.down (some ⟨0, 0⟩)]).startPos ∧
    (goToPage 2 (run initialState [Event.load 3, Event.down (some ⟨0, 0⟩)])).currentRect = none ∧
    (goToPage 2 (run initialState [Event.load 3, Event.down (some ⟨0, 0⟩)])).rectangles =
      (run initialState [Event.load 3, Event.down (some ⟨0, 0⟩)]).rectangles ∧
    (goToPage 2 (run initialState [Event.load 3, Event.down (some ⟨0, 0⟩)])).currentPage = 2 :=
  c2_goto_while_dragging _ 2
    (by norm_num [run, step, initialState, handleFileLoaded, handleMouseDown])
    (by norm_num)
    (by norm_num [run, step, initialState, handleFileLoaded, handleMouseDown])

/-- Counterexample to C2 as stated: starting a drag at `(0,0)` on page 1 of a
3-page document, then navigating to page 2 mid-drag, leaves `isDrawing = true`
(the machine is NOT back in Idle), and continuing the very same gesture with a
move and a release commits a Region — tagged with page 2. -/
theorem c2_counterexample :
    (run initialState [Event.load 3, Event.down (some ⟨0, 0⟩), Event.move (some ⟨50, 50⟩),
        Event.goTo 2]).isDrawing = true ∧
    (run initialState [Event.load 3, Event.down (some ⟨0, 0⟩), Event.move (some ⟨50, 50⟩),
        Event.goTo 2, Event.move (some ⟨100, 100⟩), Event.up (some ⟨100, 100⟩) 5]).rectangles =
      [{ x := 0, y := 0, width := 100, height := 100, pageNum := 2, id := 5 }] := by
  constructor
  · norm_num [run, step, initialState, handleFileLoaded, handleMouseDown, handleMouseMove,
      goToPage]
  · norm_num [run, step, initialState, handleFileLoaded, handleMouseDown, handleMouseMove,
      handleMouseUp, goToPage, getTopLeftCoordinates, jsRound]

lemma handleMouseMove_rectangles (pos : Option Pos) (s : AppState) :
    (handleMouseMove pos s).rectangles = s.rectangles := by
  obtain ⟨cp, tp, rcts, cr, isd, sp⟩ := s
  cases isd <;> cases sp <;> cases pos <;> rfl

lemma goToPage_rectangles (n : ℤ) (s : AppState) :
    (goToPage n s).rectangles = s.rectangles := by
  unfold goToPage
  split <;> rfl

lemma handleMouseUp_rectangles (pos : Option Pos) (t : ℕ) (s : AppState) :
    (handleMouseUp pos t s).rectangles = s.rectangles ∨
    ∃ r : Region, r.id = t ∧ 5 < r.width ∧ 5 < r.height ∧ r.pageNum = s.currentPage ∧
      (handleMouseUp pos t s).rectangles = s.rectangles ++ [r] := by
  obtain ⟨cp, tp, rcts, cr, isd, sp⟩ := s
  cases isd <;> cases sp <;> cases pos <;> cases cr
  all_goals try (left; rfl)
  rename_i sp p cr
  by_cases hC : 5 < (getTopLeftCoordinates cr.x1 cr.y1 cr.x2 cr.y2).width ∧
      5 < (getTopLeftCoordinates cr.x1 cr.y1 cr.x2 cr.y2).height
  · right
    refine ⟨{ x := (getTopLeftCoordinates cr.x1 cr.y1 cr.x2 cr.y2).x,
              y := (getTopLeftCoordinates cr.x1 cr.y1 cr.x2 cr.y2).y,
              width := (getTopLeftCoordinates cr.x1 cr.y1 cr.x2 cr.y2).width,
              height := (getTopLeftCoordinates cr.x1 cr.y1 cr.x2 cr.y2).height,
              pageNum := cp, id := t }, rfl, hC.1, hC.2, rfl, ?_⟩
    simp [handleMouseUp, hC]
  · left
    simp [handleMouseUp, hC]

lemma step_dims_pos (s : AppState) (e : Event)
    (h : ∀ r ∈ s.rectangles, 0 < r.width ∧ 0 < r.height) :
    ∀ r ∈ (step s e).rectangles, 0 < r.width ∧ 0 < r.height := by
  cases e with
  | load n => intro r hr; simp [step, handleFileLoaded] at hr
  | down p =>
      cases p with
      | none => exact h
      | some q => exact h
  | move p =>
      intro r hr
      rw [show (step s (Event.move p)).rectangles = s.rectangles from
        handleMouseMove_rectangles p s] at hr
      exact h r hr
  | up p t =>
      rcases handleMouseUp_rectangles p t s with he | ⟨r0, _, hw, hh, _, he⟩
      · intro r hr
        rw [show (step s (Event.up p t)).rectangles = s.rectangles from he] at hr
        exact h r hr
      · intro r hr
        rw [show (step s (Event.up p t)).rectangles = s.rectangles ++ [r0] from he] at hr
        rcases List.mem_append.mp hr with hr | hr
        · exact h r hr
        · obtain rfl := List.mem_singleton.mp hr
          exact ⟨by omega, by omega⟩
  | leave => exact h
  | goTo n =>
      intro r hr
      rw [show (step s (Event.goTo n)).rectangles = s.rectangles from
        goToPage_rectangles n s] at hr
      exact h r hr
  | clearPage =>
      intro r hr
      simp only [step, handleClearPage] at hr
      exact h r (List.mem_filter.mp hr).1
  | deleteRect i =>
      intro r hr
      simp only [step, handleDeleteRect] at hr
      exact h r (List.mem_filter.mp hr).1

lemma run_dims_pos (es : List Event) : ∀ s : AppState,
    (∀ r ∈ s.rectangles, 0 < r.width ∧ 0 < r.height) →
    ∀ r ∈ (run s es).rectangles, 0 < r.width ∧ 0 < r.height := by
  induction es with
  | nil => intro s h; exact h
  | cons e es ih =>
      intro s h
      rw [run_cons]
      exact ih _ (step_dims_pos s e h)

/-- Claim C4: a completed drag gesture whose rounded rectangle has width or
height at or below the threshold `5` commits nothing — the region list is
unchanged — and the machine still returns to Idle; and, over every event
trace from the initial state, every committed Region has strictly positive
width and height. -/
theorem c4_small_discarded (s : AppState) (p1 : Pos) (moves : List Pos) (p3 : Pos) (t : ℕ)
    (hsmall :
      (getTopLeftCoordinates p1.x p1.y (lastPos p1 moves).x (lastPos p1 moves).y).width ≤ 5 ∨
      (getTopLeftCoordinates p1.x p1.y (lastPos p1 moves).x (lastPos p1 moves).y).height ≤ 5) :
    ((run s (gesture p1 moves p3 t)).rectangles = s.rectangles ∧
     (run s (gesture p1 moves p3 t)).isDrawing = false ∧
     (run s (gesture p1 moves p3 t)).startPos = none ∧
     (run s (gesture p1 moves p3 t)).currentRect = none) ∧
    ∀ (es : List Event), ∀ r ∈ (run initialState es).rectangles,
      0 < r.width ∧ 0 < r.height := by
  constructor
  · rw [gesture_spec]
    refine ⟨?_, rfl, rfl, rfl⟩
    have hneg : ¬ (5 < (getTopLeftCoordinates p1.x p1.y (lastPos p1 moves).x
          (lastPos p1 moves).y).width ∧
        5 < (getTopLeftCoordinates p1.x p1.y (lastPos p1 moves).x
          (lastPos p1 moves).y).height) := by
      omega
    show (if 5 < (getTopLeftCoordinates p1.x p1.y (lastPos p1 moves).x
            (lastPos p1 moves).y).width ∧
          5 < (getTopLeftCoordinates p1.x p1.y (lastPos p1 moves).x
            (lastPos p1 moves).y).height then
        s.rectangles ++ [committedRegion s.currentPage p1 (lastPos p1 moves) t]
      else s.rectangles) = s.rectangles
    rw [if_neg hneg]
  · intro es
    exact run_dims_pos es initialState (by simp [initialState])

/-- Witness for C4: a drag from `(0,0)` to `(3,3)` (3 ≤ 5 in both dimensions)
commits nothing and resets the machine. -/
theorem c4_witness :
    ((run initialState (gesture ⟨0, 0⟩ [⟨3, 3⟩] ⟨3, 3⟩ 2)).rectangles =
        initialState.rectangles ∧
     (run initialState (gesture ⟨0, 0⟩ [⟨3, 3⟩] ⟨3, 3⟩ 2)).isDrawing = false ∧
     (run initialState (gesture ⟨0, 0⟩ [⟨3, 3⟩] ⟨3, 3⟩ 2)).startPos = none ∧
     (run initialState (gesture ⟨0, 0⟩ [⟨3, 3⟩] ⟨3, 3⟩ 2)).currentRect = none) ∧
    ∀ (es : List Event), ∀ r ∈ (run initialState es).rectangles,
      0 < r.width ∧ 0 < r.height :=
  c4_small_discarded initialState ⟨0, 0⟩ [⟨3, 3⟩] ⟨3, 3⟩ 2
    (by norm_num [lastPos, getTopLeftCoordinates, jsRound])

lemma run_ids_pairwise (es : List Event) : ∀ s : AppState,
    List.Pairwise (· < ·) (s.rectangles.map (fun r => r.id)) →
    (∀ i ∈ s.rectangles.map (fun r => r.id), ∀ u ∈ eventTimes es, i < u) →
    List.Pairwise (· < ·) (eventTimes es) →
    List.Pairwise (· < ·) ((run s es).rectangles.map (fun r => r.id)) := by
  induction es with
  | nil => intro s h _ _; exact h
  | cons e es ih =>
      intro s h hfut htimes
      rw [run_cons]
      cases e with
      | load n =>
          apply ih
          · simp [step, handleFileLoaded]
          · simp [step, handleFileLoaded]
          · exact htimes
      | down p =>
          cases p with
          | none => exact ih s h hfut htimes
          | some q =>
              apply ih
              · exact h
              · exact fun i hi u hu => hfut i hi u hu
              · exact htimes
      | move p =>
          apply ih
          · rw [show (step s (Event.move p)).rectangles = s.rectangles from
              handleMouseMove_rectangles p s]
            exact h
          · rw [show (step s (Event.move p)).rectangles = s.rectangles from
              handleMouseMove_rectangles p s]
            exact fun i hi u hu => hfut i hi u hu
          · exact htimes
      | up p t =>
          have htimes' : List.Pairwise (· < ·) (t :: eventTimes es) := htimes
          have hfut' : ∀ i ∈ s.rectangles.map (fun r => r.id),
              ∀ u ∈ t :: eventTimes es, i < u := hfut
          rcases handleMouseUp_rectangles p t s with he | ⟨r0, hid, _, _, _, he⟩
          · apply ih
            · rw [show (step s (Event.up p t)).rectangles = s.rectangles from he]
              exact h
            · rw [show (step s (Event.up p t)).rectangles = s.rectangles from he]
              exact fun i hi u hu => hfut' i hi u (List.mem_cons_of_mem _ hu)
            · exact (List.pairwise_cons.mp htimes').2
          · have hmap : (step s (Event.up p t)).rectangles.map (fun r => r.id) =
                s.rectangles.map (fun r => r.id) ++ [t] := by
              rw [show (step s (Event.up p t)).rectangles = s.rectangles ++ [r0] from he]
              simp [hid]
            apply ih
            · rw [hmap, List.pairwise_append]
              refine ⟨h, List.pairwise_singleton _ _, ?_⟩
              intro a ha b hb
              obtain rfl := List.mem_singleton.mp hb
              exact hfut' a ha _ (List.mem_cons_self _ _)
            · rw [hmap]
              intro i hi u hu
              rcases List.mem_append.mp hi with hi | hi
              · exact hfut' i hi u (List.mem_cons_of_mem _ hu)
              · obtain rfl := List.mem_singleton.mp hi
                exact (List.pairwise_cons.mp htimes').1 u hu
            · exact (List.pairwise_cons.mp htimes').2
      | leave =>
          exact ih _ h (fun i hi u hu => hfut i hi u hu) htimes
      | goTo n =>
          apply ih
          · rw [show (step s (Event.goTo n)).rectangles = s.rectangles from
              goToPage_rectangles n s]
            exact h
          · rw [show (step s (Event.goTo n)).rectangles = s.rectangles from
              goToPage_rectangles n s]
            exact fun i hi u hu => hfut i hi u hu
          · exact htimes
      | clearPage =>
          apply ih
          · exact List.Pairwise.sublist
              (((List.filter_sublist s.rectangles)).map (fun r => r.id)) h
          · exact fun i hi u hu =>
              hfut i ((((List.filter_sublist s.rectangles)).map (fun r => r.id)).subset hi) u hu
          · exact htimes
      | deleteRect j =>
          apply ih
          · exact List.Pairwise.sublist
              (((List.filter_sublist s.rectangles)).map (fun r => r.id)) h
          · exact fun i hi u hu =>
              hfut i ((((List.filter_sublist s.rectangles)).map (fun r => r.id)).subset hi) u hu
          · exact htimes

/-- Claim C8 (amended): the id assigned at commit is the `Date.now()` clock
reading at that commit.  When the clock readings carried by the pointer-up
events of a trace are strictly increasing, the committed Regions' ids are
strictly increasing in creation order — and in particular pairwise distinct.
(The claim as stated, with no condition on the clock, is refuted by the
counterexample: two commits in the same millisecond share an id.) -/
theorem c8_ids_strict_mono (es : List Event)
    (h : List.Pairwise (· < ·) (eventTimes es)) :
    List.Pairwise (· < ·) ((run initialState es).rectangles.map (fun r => r.id)) ∧
    ((run initialState es).rectangles.map (fun r => r.id)).Nodup := by
  have hp := run_ids_pairwise es initialState (by simp [initialState])
    (by simp [initialState]) h
  exact ⟨hp, hp.imp (fun hlt => Nat.ne_of_lt hlt)⟩

/-- Witness for C8 (amended): two drags committed at clock readings 1 and 2
yield regions with strictly increasing, distinct ids. -/
theorem c8_witness :
    List.Pairwise (· < ·) ((run initialState (gesture ⟨0, 0⟩ [⟨10, 10⟩] ⟨10, 10⟩ 1 ++
      gesture ⟨50, 50⟩ [⟨80, 80⟩] ⟨80, 80⟩ 2)).rectangles.map (fun r => r.id)) ∧
    ((run initialState (gesture ⟨0, 0⟩ [⟨10, 10⟩] ⟨10, 10⟩ 1 ++
      gesture ⟨50, 50⟩ [⟨80, 80⟩] ⟨80, 80⟩ 2)).rectangles.map (fun r => r.id)).Nodup := by
  have hpair : List.Pairwise (· < ·) (eventTimes (gesture ⟨0, 0⟩ [⟨10, 10⟩] ⟨10, 10⟩ 1 ++
      gesture ⟨50, 50⟩ [⟨80, 80⟩] ⟨80, 80⟩ 2)) := by
    simp [gesture, eventTimes]
  exact c8_ids_strict_mono _ hpair

/-- Counterexample to C8 as stated: two distinct Regions committed within the
same `Date.now()` millisecond (clock reading 1000 at both pointer-ups) receive
EQUAL ids — ids are not unique. -/
theorem c8_counterexample :
    (run initialState (gesture ⟨0, 0⟩ [⟨10, 10⟩] ⟨10, 10⟩ 1000 ++
        gesture ⟨50, 50⟩ [⟨80, 80⟩] ⟨80, 80⟩ 1000)).rectangles =
      [{ x := 0, y := 0, width := 10, height := 10, pageNum := 1, id := 1000 },
       { x := 50, y := 50, width := 30, height := 30, pageNum := 1, id := 1000 }] ∧
    ({ x := 0, y := 0, width := 10, height := 10, pageNum := 1, id := 1000 } : Region) ≠
      { x := 50, y := 50, width := 30, height := 30, pageNum := 1, id := 1000 } := by
  constructor
  · norm_num [run, step, gesture, initialState, handleMouseDown, handleMouseMove,
      handleMouseUp, getTopLeftCoordinates, jsRound]
  · simp
